import Mathlib

/-!
Verification development for the google-ads-api-playground repository.

The repository consists of three interactive TypeScript scripts
(googleAdsQueryTool.ts, clickViewFeb2025.ts, archive/googleAdsPlayground.ts)
that authenticate against the Google Ads API via OAuth2 and run GAQL queries.
This file gives a shallow embedding of the parts of those scripts that the
verified properties are about:

* the local HTTP listener of generateAuthUrl that captures the OAuth redirect
  (request handler, one-shot promise, scheduled server close);
* the interactive configuration setup (promptForMissingConfig) and the
  token-exchange branch of generateAuthUrl;
* the authorization-URL call sites of all three scripts;
* the menu loop of googleAdsQueryTool.ts and its per-operation try/catch
  error handling;
* generateLast90DaysDates of clickViewFeb2025.ts, over a day-number model of
  the ECMAScript Date arithmetic it uses.

JavaScript strings are Lean String; absent/null string values are modelled as
Option String or as the empty string, matching how each source site
initialises them; JavaScript truthiness tests on such values are modelled
explicitly by jsTruthy.
-/

/-! ## The authorization code capture listener (generateAuthUrl) -/

/-- One HTTP response produced by the capture listener: status code, the
Content-Type header value, and the body text. -/
structure HttpResponse where
  status : Nat
  contentType : String
  body : String
  deriving DecidableEq

/-- JavaScript truthiness of a string-or-null value, as tested by
`if (code)` and `if (tokens.refresh_token)` in the sources: null/undefined
and the empty string are falsy, every other string is truthy. -/
def jsTruthy : Option String → Bool
  | none => false
  | some s => !(s == "")

/-- url.searchParams.get(name): the value of the first query-string parameter
with the given name, or null when the parameter is absent. Requests are
modelled by their parsed query-string parameter list. -/
def searchParamsGet (params : List (String × String)) (name : String) : Option String :=
  (params.find? (fun p => p.1 == name)).map (fun p => p.2)

/-- State of one authorization capture step (one call of generateAuthUrl in
googleAdsQueryTool.ts / clickViewFeb2025.ts):

* `listening` — the http server created at the top of generateAuthUrl is
  still bound to port 8080;
* `closeScheduled` — a delayed server.close() (setTimeout, 1000 ms) is
  pending;
* `resolved` — the value slot of authCodePromise: `none` while pending,
  `some c` once resolveAuthCodePromise has been called with c;
* `returned` — generateAuthUrl has returned (the step is complete). -/
structure CaptureState where
  listening : Bool
  closeScheduled : Bool
  resolved : Option String
  returned : Bool
  deriving DecidableEq

/-- The state right after generateAuthUrl has created the server, the pending
promise, and called server.listen(8080). -/
def initialCaptureState : CaptureState :=
  { listening := true, closeScheduled := false, resolved := none, returned := false }

/-- A JavaScript promise settles at most once: calling the stored resolver
again after the promise is resolved is a no-op. -/
def resolvePromise (slot : Option String) (v : String) : Option String :=
  match slot with
  | none => some v
  | some w => some w

/-- The success page sent on the code-present branch (whitespace of the
template literal condensed). -/
def successBody : String :=
  "<html><body><h1>Authentication Successful</h1><p>You have successfully authenticated with Google Ads API.</p><p>You can close this window and return to the application.</p></body></html>"

/-- The failure page sent on the code-absent branch (whitespace of the
template literal condensed). -/
def failureBody : String :=
  "<html><body><h1>Authentication Failed</h1><p>No authorization code was received.</p><p>Please try again.</p></body></html>"

/-- The request handler installed by generateAuthUrl
(`server.on("request", ...)`): read the `code` query parameter; if it is
truthy, answer 200 with the success page, resolve authCodePromise with the
code and schedule the delayed server.close(); otherwise answer 400 with the
failure page and change nothing. -/
def handleRequest (st : CaptureState) (params : List (String × String)) :
    HttpResponse × CaptureState :=
  let code := searchParamsGet params "code"
  if jsTruthy code then
    (⟨200, "text/html", successBody⟩,
      { st with
        resolved := resolvePromise st.resolved (code.getD "")
        closeScheduled := true })
  else
    (⟨400, "text/html", failureBody⟩, st)

/-- The events that drive one capture step: an inbound HTTP request (with its
parsed query parameters), the firing of the delayed server.close(), and the
return of generateAuthUrl itself (which the code reaches only after awaiting
authCodePromise). -/
inductive AuthEvent where
  | request (params : List (String × String))
  | closeTimerFire
  | stepReturn
  deriving DecidableEq

/-- Which events can actually occur in a given state: requests reach the
handler only while the server is bound; the delayed close fires only if it
was scheduled; generateAuthUrl can return only after authCodePromise is
resolved (the await has no timeout), and returns once. -/
def authEnabled (st : CaptureState) : AuthEvent → Bool
  | .request _ => st.listening
  | .closeTimerFire => st.closeScheduled
  | .stepReturn => st.resolved.isSome && !st.returned

/-- Effect of one event on the capture state. -/
def authStep (st : CaptureState) : AuthEvent → CaptureState
  | .request params => (handleRequest st params).2
  | .closeTimerFire => { st with listening := false, closeScheduled := false }
  | .stepReturn => { st with returned := true }

/-- Run a sequence of events. -/
def runAuth (st : CaptureState) : List AuthEvent → CaptureState
  | [] => st
  | e :: es => runAuth (authStep st e) es

/-- A sequence of events is a real execution when every event is enabled in
the state it occurs in. -/
def validTrace (st : CaptureState) : List AuthEvent → Bool
  | [] => true
  | e :: es => authEnabled st e && validTrace (authStep st e) es

/-- The inductive invariant behind the amended C3. -/
def captureClosedInv (st : CaptureState) : Prop :=
  (st.resolved.isSome = true → st.closeScheduled = true ∨ st.listening = false) ∧
  (st.returned = true → st.resolved.isSome = true)

/-! ## Configuration setup (promptForMissingConfig) and the token exchange

The GoogleAdsConfig object of googleAdsQueryTool.ts / clickViewFeb2025.ts.
Every field is initialised from process.env with fallback "", so an absent
value is the empty string, and the `!config[field]` tests in the source are
equality with "". -/

structure GoogleAdsConfig where
  developer_token : String
  client_id : String
  client_secret : String
  refresh_token : String
  customer_id : String
  login_customer_id : String
  deriving DecidableEq

/-- answer.toLowerCase(), as applied to the console answers before they are
compared (character-wise ASCII lowercasing). -/
def jsToLower (s : String) : String :=
  ⟨s.data.map Char.toLower⟩

/-- The yes/no prompts of the scripts: the answer is lowercased and compared
with "yes" and "y". -/
def yesAnswer (s : String) : Bool :=
  jsToLower s == "yes" || jsToLower s == "y"

/-- Outcome of one `oauth2Client.getToken(authCode)` call: either it resolves
with a tokens object whose refresh_token field may be absent (null/undefined,
modelled as `none`), or the call (or anything else inside the try block)
throws. -/
inductive ExchangeResult where
  | tokens (refresh_token : Option String)
  | err
  deriving DecidableEq

/-- The token-exchange branch of generateAuthUrl: on a truthy refresh token
the config field is set and the step succeeds; on a falsy refresh token or a
thrown error the config is untouched and the retry prompt is shown (the
returned Bool). -/
def applyExchange (cfg : GoogleAdsConfig) (r : ExchangeResult) : GoogleAdsConfig × Bool :=
  match r with
  | .tokens rt =>
    if jsTruthy rt then ({ cfg with refresh_token := rt.getD "" }, false)
    else (cfg, true)
  | .err => (cfg, true)

/-- The recursive retry structure of generateAuthUrl, driven by the script of
exchange outcomes and retry answers consumed by successive attempts: each
attempt applies its exchange outcome; when the retry prompt is shown and the
operator answers yes, generateAuthUrl calls itself again; otherwise it
returns. Note that no branch prompts for manual refresh-token entry. -/
def generateAuthUrlFlow (cfg : GoogleAdsConfig) :
    List (ExchangeResult × String) → GoogleAdsConfig
  | [] => cfg
  | (r, retryAns) :: rest =>
    let step := applyExchange cfg r
    if step.2 then
      if yesAnswer retryAns then generateAuthUrlFlow step.1 rest else step.1
    else step.1

/-- The console answers consumed by one run of promptForMissingConfig, in
prompt order. -/
structure SetupAnswers where
  developerTokenAns : String
  clientIdAns : String
  clientSecretAns : String
  genUrlAns : String
  attempts : List (ExchangeResult × String)
  manualRefreshAns : String
  customerIdAns : String
  useLoginAns : String
  loginCustomerIdAns : String
  deriving DecidableEq

/-- The required-fields loop of promptForMissingConfig: for each of
developer_token, client_id, client_secret, prompt when the current value is
falsy. -/
def promptRequired (cfg : GoogleAdsConfig) (a : SetupAnswers) : GoogleAdsConfig :=
  let cfg1 := if cfg.developer_token = "" then
    { cfg with developer_token := a.developerTokenAns } else cfg
  let cfg2 := if cfg1.client_id = "" then
    { cfg1 with client_id := a.clientIdAns } else cfg1
  if cfg2.client_secret = "" then
    { cfg2 with client_secret := a.clientSecretAns } else cfg2

/-- The refresh-token branch of promptForMissingConfig: when the refresh
token is falsy, either run generateAuthUrl (answer yes) or prompt for the
refresh token manually. The Bool records whether the manual refresh-token
prompt was issued. -/
def promptRefresh (cfg : GoogleAdsConfig) (a : SetupAnswers) : GoogleAdsConfig × Bool :=
  if cfg.refresh_token = "" then
    if yesAnswer a.genUrlAns then (generateAuthUrlFlow cfg a.attempts, false)
    else ({ cfg with refresh_token := a.manualRefreshAns }, true)
  else (cfg, false)

/-- The customer-id prompts of promptForMissingConfig: prompt for a falsy
customer id, then optionally for a login customer id. -/
def promptCustomerIds (cfg : GoogleAdsConfig) (a : SetupAnswers) : GoogleAdsConfig :=
  let cfg5 := if cfg.customer_id = "" then
    { cfg with customer_id := a.customerIdAns } else cfg
  if cfg5.login_customer_id = "" then
    (if yesAnswer a.useLoginAns then
      { cfg5 with login_customer_id := a.loginCustomerIdAns } else cfg5)
  else cfg5

/-- promptForMissingConfig, in source order: required fields, then the
refresh token, then the customer ids. The Bool records whether the manual
refresh-token prompt was issued. -/
def promptForMissingConfig (cfg : GoogleAdsConfig) (a : SetupAnswers) :
    GoogleAdsConfig × Bool :=
  let cfg3 := promptRequired cfg a
  let step4 := promptRefresh cfg3 a
  (promptCustomerIds step4.1 a, step4.2)

/-! ## The authorization URL call sites -/

/-- The options object passed to oauth2Client.generateAuthUrl by all three
scripts. -/
structure GenerateAuthUrlOpts where
  access_type : String
  scope : List String
  prompt : String
  deriving DecidableEq

/-- Modelled from the spec: the OAuth2 library call generateAuthUrl (the
google-auth-library collaborator, whose code is not part of this repository)
builds an authorization URL whose query string carries the client id and the
redirect target given to the OAuth2Client constructor together with the
passed options (requested scope, access_type, prompt). -/
def oauthAuthUrlParams (clientId redirectUri : String) (opts : GenerateAuthUrlOpts) :
    List (String × String) :=
  [("client_id", clientId),
    ("redirect_uri", redirectUri),
    ("scope", String.intercalate " " opts.scope),
    ("access_type", opts.access_type),
    ("prompt", opts.prompt)]

/-- The advertising API scope requested by all three scripts. -/
def adwordsScopes : List String :=
  ["https://www.googleapis.com/auth/adwords"]

/-- The generateAuthUrl call site of googleAdsQueryTool.ts: OAuth2Client is
constructed with the configured client id and secret and the localhost
redirect embedding the fixed listener port 8080. -/
def queryToolAuthUrlParams (cfg : GoogleAdsConfig) : List (String × String) :=
  oauthAuthUrlParams cfg.client_id ("http://localhost:" ++ toString 8080)
    { access_type := "offline", scope := adwordsScopes, prompt := "consent" }

/-- The generateAuthUrl call site of clickViewFeb2025.ts (same construction
as the query tool one). -/
def clickViewAuthUrlParams (cfg : GoogleAdsConfig) : List (String × String) :=
  oauthAuthUrlParams cfg.client_id ("http://localhost:" ++ toString 8080)
    { access_type := "offline", scope := adwordsScopes, prompt := "consent" }

/-- The generateAuthUrl call site of archive/googleAdsPlayground.ts:
OAuth2Client is constructed with the out-of-band redirect target, not a
localhost one (the archived script has no local listener at all). -/
def playgroundAuthUrlParams (cfg : GoogleAdsConfig) : List (String × String) :=
  oauthAuthUrlParams cfg.client_id "urn:ietf:wg:oauth:2.0:oob"
    { access_type := "offline", scope := adwordsScopes, prompt := "consent" }

/-! ## The menu loop of googleAdsQueryTool.ts and per-operation error
handling

Each operation wraps its collaborator call in try/catch; the collaborator
call is modelled by its outcome (Except.error means the call threw). The
operations return Except so that an uncaught error would show up as
Except.error; the catch blocks turn every error into a printed message
(modelled as the returned message list) and a normal return. Row data and
per-row formatting are abstracted to the printable headline messages. -/

/-- runGaqlQuery of googleAdsQueryTool.ts. -/
def runGaqlQuery (queryResult : Except String (List String)) :
    Except String (List String) :=
  match queryResult with
  | .ok results =>
    if results.length > 0 then
      .ok ["\n✅ Query returned " ++ toString results.length ++ " results:"]
    else
      .ok ["\n⚠️ Query returned no results."]
  | .error e => .ok ["\n❌ Error running GAQL query: " ++ e]

/-- listAccessibleCustomers of googleAdsQueryTool.ts. -/
def listAccessibleCustomers (resp : Except String (List String)) :
    Except String (List String) :=
  match resp with
  | .ok names =>
    if names.length > 0 then
      .ok ["\n✅ Found " ++ toString names.length ++ " accessible customer accounts:"]
    else
      .ok ["\n⚠️ No accessible customer accounts found."]
  | .error e => .ok ["\n❌ Error listing accessible customers: " ++ e]

/-- listConversionActions of googleAdsQueryTool.ts. -/
def listConversionActions (queryResult : Except String (List String)) :
    Except String (List String) :=
  match queryResult with
  | .ok results =>
    if results.length > 0 then
      .ok ["\n✅ Found " ++ toString results.length ++ " conversion actions:"]
    else
      .ok ["\n⚠️ No conversion actions found."]
  | .error e => .ok ["\n❌ Error listing conversion actions: " ++ e]

/-- updateConversionActionStatus of googleAdsQueryTool.ts. -/
def updateConversionActionStatus (mutateResult : Except String (List String)) :
    Except String (List String) :=
  match mutateResult with
  | .ok results =>
    if results.length > 0 then
      .ok ["\n✅ Successfully updated conversion action status to ENABLED:"]
    else
      .ok ["\n⚠️ Update operation completed but no results returned."]
  | .error e => .ok ["\n❌ Error updating conversion action status: " ++ e]

/-- createThirdPartyAppAnalyticsLink of googleAdsQueryTool.ts. -/
def createThirdPartyAppAnalyticsLink (mutateResult : Except String (List String)) :
    Except String (List String) :=
  match mutateResult with
  | .ok results =>
    if results.length > 0 then
      .ok ["\n✅ Successfully created Third-Party App Analytics Link:"]
    else
      .ok ["\n⚠️ Operation completed but no results returned."]
  | .error e => .ok ["\n❌ Error creating Third-Party App Analytics Link: " ++ e]

/-- One iteration of the main menu: the choice the operator enters and the
outcome of the API call that iteration performs (if any). -/
structure MenuEvent where
  choice : String
  outcome : Except String (List String)

/-- The switch statement of main() for choices other than the exit option. -/
def dispatchChoice (ev : MenuEvent) : Except String (List String) :=
  if ev.choice = "1" then listAccessibleCustomers ev.outcome
  else if ev.choice = "2" then runGaqlQuery ev.outcome
  else if ev.choice = "3" then listConversionActions ev.outcome
  else if ev.choice = "4" then updateConversionActionStatus ev.outcome
  else if ev.choice = "5" then createThirdPartyAppAnalyticsLink ev.outcome
  else .ok ["\n⚠️ Invalid option. Please select a number between 1 and 6."]

/-- The main menu loop of googleAdsQueryTool.ts, driven by the finite script
of operator choices with their call outcomes (the script ending models the
operator input stream ending). Choice 6 sets exitProgram and leaves the
loop; an error escaping an operation would abort the loop (it would fall
through to the main().catch handler and the process would exit). The Bool
records whether the loop ended through the explicit exit choice. -/
def menuLoop : List MenuEvent → List String × Bool
  | [] => ([], false)
  | ev :: rest =>
    if ev.choice = "6" then (["\nThank you for using Google Ads API Query Tool!"], true)
    else
      match dispatchChoice ev with
      | .ok msgs =>
        let r := menuLoop rest
        (msgs ++ r.1, r.2)
      | .error e => (["uncaught error: " ++ e], false)

/-! ## generateLast90DaysDates of clickViewFeb2025.ts

The script computes, for i = 0..89, a Date obtained from the current Date by
setDate(today.getDate() - i) and formats it as year-month-day with
String(..).padStart(2, "0") on month and day. Per the ECMAScript
specification, setDate(n) sets the time value with MakeDay(year, month, n),
which is the day number of the first of the current month plus n - 1; hence
the Date produced at index i is exactly (day number of today) - i. Dates are
therefore modelled by their day number (days since 1970-01-01; the time of
day, and the assumption that the loop runs within a single calendar day, are
elided), and the Date getters (getFullYear, getMonth + 1, getDate) by the
civil-from-day-number conversion of the proleptic Gregorian calendar that
the ECMAScript Date arithmetic implements. -/

/-- A civil date as exposed by the Date getters: year, month 1..12, day of
month 1..31. -/
structure CivilDate where
  year : Int
  month : Nat
  day : Nat
  deriving DecidableEq

/-- Day number to civil date (proleptic Gregorian): shift to a base of
400-year eras of 146097 days, then split the day of era into century, 4-year
block, year and day of year (counted from March 1), and read month and day
of month off the day of year. -/
def civilFromDays (z : Int) : CivilDate :=
  let era : Int := (z + 719468) / 146097
  let doe : Nat := (z + 719468 - era * 146097).toNat
  let c : Nat := min (doe / 36524) 3
  let doc : Nat := doe - 36524 * c
  let q : Nat := doc / 1461
  let doq : Nat := doc - 1461 * q
  let yq : Nat := min (doq / 365) 3
  let doy : Nat := doq - 365 * yq
  let yoe : Nat := 100 * c + 4 * q + yq
  let mp : Nat := (5 * doy + 2) / 153
  let d : Nat := doy - (153 * mp + 2) / 5 + 1
  let m : Nat := if mp < 10 then mp + 3 else mp - 9
  { year := (yoe : Int) + era * 400 + (if m ≤ 2 then 1 else 0), month := m, day := d }

/-- Civil date to day number (the MakeDay computation of the ECMAScript
specification, via the same era decomposition). -/
def daysFromCivil (cd : CivilDate) : Int :=
  let y : Int := cd.year - (if cd.month ≤ 2 then 1 else 0)
  let era : Int := y / 400
  let yoe : Nat := (y - era * 400).toNat
  let mp : Nat := if 2 < cd.month then cd.month - 3 else cd.month + 9
  let doy : Nat := (153 * mp + 2) / 5 + cd.day - 1
  let doe : Nat := yoe * 365 + yoe / 4 - yoe / 100 + doy
  era * 146097 + (doe : Int) - 719468

/-- String(n).padStart(2, "0"), as applied to the month and day numbers. -/
def pad2 (n : Nat) : String :=
  if (toString n).length < 2 then "0" ++ toString n else toString n

/-- The per-day format of generateLast90DaysDates: getFullYear, zero-padded
getMonth + 1 and zero-padded getDate, joined with dashes. -/
def formatDateYMD (cd : CivilDate) : String :=
  toString cd.year ++ "-" ++ pad2 cd.month ++ "-" ++ pad2 cd.day

/-- generateLast90DaysDates of clickViewFeb2025.ts, with the current Date
modelled by its day number t: for i = 0..89 the script builds the Date with
setDate(today.getDate() - i), that is day number t - i, and formats it. -/
def generateLast90DaysDates (t : Int) : List String :=
  (List.range 90).map (fun (i : Nat) => formatDateYMD (civilFromDays (t - (i : Int))))

/-! ### Helper lemmas about the handler -/

theorem handleRequest_truthy (st : CaptureState) (params : List (String × String))
    (c : String) (hc : searchParamsGet params "code" = some c) (hne : c ≠ "") :
    handleRequest st params =
      (⟨200, "text/html", successBody⟩,
        { st with resolved := resolvePromise st.resolved c, closeScheduled := true }) := by
  unfold handleRequest
  rw [hc]
  have : jsTruthy (some c) = true := by
    simp [jsTruthy, hne]
  simp [this]

theorem handleRequest_falsy (st : CaptureState) (params : List (String × String))
    (hc : jsTruthy (searchParamsGet params "code") = false) :
    handleRequest st params = (⟨400, "text/html", failureBody⟩, st) := by
  unfold handleRequest
  simp [hc]

theorem handleRequest_keeps_resolved (st : CaptureState) (params : List (String × String))
    (c : String) (h : st.resolved = some c) :
    ((handleRequest st params).2).resolved = some c := by
  unfold handleRequest
  cases hj : jsTruthy (searchParamsGet params "code") <;> simp [hj, h, resolvePromise]

/-- Claim C1: for every inbound request whose query string carries a
non-empty `code` parameter, the handler answers HTTP 200 with an HTML body,
resolves the pending authCodePromise exactly once with exactly that code
(later requests can never change the resolved value), leaves the listener
flag untouched, and schedules the delayed server close. -/
theorem c1_code_request_success (st : CaptureState) (params : List (String × String))
    (c : String) (hc : searchParamsGet params "code" = some c) (hne : c ≠ "")
    (hpending : st.resolved = none) :
    (handleRequest st params).1.status = 200 ∧
    (handleRequest st params).1.contentType = "text/html" ∧
    (handleRequest st params).1.body = successBody ∧
    ((handleRequest st params).2).resolved = some c ∧
    ((handleRequest st params).2).closeScheduled = true ∧
    ((handleRequest st params).2).listening = st.listening ∧
    ∀ params2, ((handleRequest (handleRequest st params).2 params2).2).resolved = some c := by
  rw [handleRequest_truthy st params c hc hne]
  refine ⟨rfl, rfl, rfl, ?_, rfl, rfl, ?_⟩
  · simp [hpending, resolvePromise]
  · intro params2
    apply handleRequest_keeps_resolved
    simp [hpending, resolvePromise]

/-- Witness for C1 at a concrete request. -/
theorem c1_code_request_success_witness :
    (handleRequest initialCaptureState [("code", "ABC123")]).1.status = 200 ∧
    ((handleRequest initialCaptureState [("code", "ABC123")]).2).resolved = some "ABC123" := by
  have h := c1_code_request_success initialCaptureState [("code", "ABC123")] "ABC123"
    (by decide) (by decide) (by decide)
  exact ⟨h.1, h.2.2.2.1⟩

/-- Claim C2: for every inbound request whose query string has no `code`
parameter, the handler answers HTTP 400 with an HTML body and changes
nothing (the promise stays pending and the listener stays open), so a later
request carrying a non-empty code still succeeds with 200 and resolves the
promise with that code. -/
theorem c2_missing_code (st : CaptureState) (params : List (String × String))
    (hc : searchParamsGet params "code" = none) :
    (handleRequest st params).1.status = 400 ∧
    (handleRequest st params).1.contentType = "text/html" ∧
    (handleRequest st params).1.body = failureBody ∧
    (handleRequest st params).2 = st ∧
    ∀ params2 c, searchParamsGet params2 "code" = some c → c ≠ "" → st.resolved = none →
      (handleRequest (handleRequest st params).2 params2).1.status = 200 ∧
      ((handleRequest (handleRequest st params).2 params2).2).resolved = some c := by
  have hfalsy : jsTruthy (searchParamsGet params "code") = false := by
    rw [hc]; rfl
  rw [handleRequest_falsy st params hfalsy]
  refine ⟨rfl, rfl, rfl, rfl, ?_⟩
  intro params2 c hc2 hne hpending
  rw [handleRequest_truthy st params2 c hc2 hne]
  exact ⟨rfl, by simp [hpending, resolvePromise]⟩

/-- Witness for C2 at a concrete pair of requests. -/
theorem c2_missing_code_witness :
    (handleRequest initialCaptureState [("state", "xyz")]).1.status = 400 ∧
    (handleRequest initialCaptureState [("state", "xyz")]).2 = initialCaptureState ∧
    (handleRequest (handleRequest initialCaptureState [("state", "xyz")]).2
        [("code", "ABC123")]).1.status = 200 := by
  have h := c2_missing_code initialCaptureState [("state", "xyz")] (by decide)
  exact ⟨h.1, h.2.2.2.1, (h.2.2.2.2 [("code", "ABC123")] "ABC123" (by decide) (by decide)
    (by decide)).1⟩

/-- Claim C10: a `code` parameter that is present but empty (such as
`?code=`) is treated exactly like an absent one: the handler answers HTTP
400 and does not resolve the pending authorization. -/
theorem c10_empty_code_is_error (st : CaptureState) (params : List (String × String))
    (hc : searchParamsGet params "code" = some "") :
    (handleRequest st params).1.status = 400 ∧
    (handleRequest st params).1.body = failureBody ∧
    (handleRequest st params).2 = st := by
  have hfalsy : jsTruthy (searchParamsGet params "code") = false := by
    rw [hc]; rfl
  rw [handleRequest_falsy st params hfalsy]
  exact ⟨rfl, rfl, rfl⟩

/-- Witness for C10 at a concrete request. -/
theorem c10_empty_code_is_error_witness :
    (handleRequest initialCaptureState [("code", "")]).1.status = 400 ∧
    (handleRequest initialCaptureState [("code", "")]).2 = initialCaptureState := by
  have h := c10_empty_code_is_error initialCaptureState [("code", "")] (by decide)
  exact ⟨h.1, h.2.2⟩

/-! ### Claim C3: port release on exit paths

The code never awaits the scheduled close: generateAuthUrl can return (and a
retry can call server.listen(8080) again) while the previous listener is
still bound. The counterexample below exhibits a valid execution that
reaches a completed step with the listener still open, refuting the claim as
stated; the amended theorem states what the code does guarantee. -/

/-- Counterexample to C3 as stated: a valid execution of the capture step in
which generateAuthUrl has returned (the step is complete) while the listener
is still bound to the port — the delayed server.close() has been scheduled
but has not fired yet. -/
theorem c3_counterexample :
    validTrace initialCaptureState
      [AuthEvent.request [("code", "ABC123")], AuthEvent.stepReturn] = true ∧
    (runAuth initialCaptureState
      [AuthEvent.request [("code", "ABC123")], AuthEvent.stepReturn]).returned = true ∧
    (runAuth initialCaptureState
      [AuthEvent.request [("code", "ABC123")], AuthEvent.stepReturn]).listening = true := by
  decide

theorem captureClosedInv_step (st : CaptureState) (e : AuthEvent)
    (h : captureClosedInv st) (he : authEnabled st e = true) :
    captureClosedInv (authStep st e) := by
  obtain ⟨h1, h2⟩ := h
  cases e with
  | request params =>
    unfold authStep handleRequest
    cases hj : jsTruthy (searchParamsGet params "code") with
    | false => simpa [hj] using ⟨h1, h2⟩
    | true =>
      simp only [hj, if_true]
      exact ⟨fun _ => Or.inl rfl, fun hr => by
        have := h2 hr
        cases hres : st.resolved with
        | none => simp [resolvePromise]
        | some w => simp [resolvePromise, hres]⟩
  | closeTimerFire =>
    exact ⟨fun _ => Or.inr rfl, h2⟩
  | stepReturn =>
    simp only [authEnabled, Bool.and_eq_true] at he
    exact ⟨h1, fun _ => he.1⟩

theorem captureClosedInv_run (st : CaptureState) (tr : List AuthEvent)
    (h : captureClosedInv st) (hv : validTrace st tr = true) :
    captureClosedInv (runAuth st tr) := by
  induction tr generalizing st with
  | nil => exact h
  | cons e es ih =>
    simp only [validTrace, Bool.and_eq_true] at hv
    exact ih (authStep st e) (captureClosedInv_step st e h hv.1) hv.2

/-- Claim C3, amended: on the success path the handler schedules the delayed
listener close before the step can complete, and once that close fires the
listener is unbound; but the code never waits for the close, so in every
valid execution a completed step only guarantees that the close is scheduled
or has already happened — not that the port is released before the step is
considered complete. -/
theorem c3_amended_close_scheduled_or_closed (tr : List AuthEvent)
    (hv : validTrace initialCaptureState tr = true)
    (hr : (runAuth initialCaptureState tr).returned = true) :
    (runAuth initialCaptureState tr).closeScheduled = true ∨
    (runAuth initialCaptureState tr).listening = false := by
  have hinv : captureClosedInv initialCaptureState := by
    constructor <;> intro h <;> simp [initialCaptureState] at h
  have h := captureClosedInv_run initialCaptureState tr hinv hv
  exact h.1 (h.2 hr)

/-- Witness for the amended C3 at a concrete execution. -/
theorem c3_amended_close_scheduled_or_closed_witness :
    (runAuth initialCaptureState
      [AuthEvent.request [("code", "ABC123")], AuthEvent.closeTimerFire,
        AuthEvent.stepReturn]).closeScheduled = true ∨
    (runAuth initialCaptureState
      [AuthEvent.request [("code", "ABC123")], AuthEvent.closeTimerFire,
        AuthEvent.stepReturn]).listening = false :=
  c3_amended_close_scheduled_or_closed
    [AuthEvent.request [("code", "ABC123")], AuthEvent.closeTimerFire, AuthEvent.stepReturn]
    (by decide) (by decide)

theorem promptCustomerIds_keeps_credentials (cfg : GoogleAdsConfig) (a : SetupAnswers) :
    (promptCustomerIds cfg a).developer_token = cfg.developer_token ∧
    (promptCustomerIds cfg a).client_id = cfg.client_id ∧
    (promptCustomerIds cfg a).client_secret = cfg.client_secret ∧
    (promptCustomerIds cfg a).refresh_token = cfg.refresh_token := by
  simp only [promptCustomerIds]
  split_ifs <;> exact ⟨rfl, rfl, rfl, rfl⟩

/-- Claim C4: when the token exchange resolves with a response whose
refresh_token is absent or empty, the exchange branch leaves every field of
the credential configuration unchanged and shows the retry prompt, so the
caller can retry the authorization flow. -/
theorem c4_no_refresh_token_frame (cfg : GoogleAdsConfig) (rt : Option String)
    (h : jsTruthy rt = false) :
    applyExchange cfg (ExchangeResult.tokens rt) = (cfg, true) := by
  unfold applyExchange
  simp [h]

/-- Witness for C4 at a concrete configuration and response. -/
theorem c4_no_refresh_token_frame_witness :
    applyExchange
      { developer_token := "DT", client_id := "CI", client_secret := "CS",
        refresh_token := "OLD", customer_id := "123", login_customer_id := "" }
      (ExchangeResult.tokens none) =
      ({ developer_token := "DT", client_id := "CI", client_secret := "CS",
         refresh_token := "OLD", customer_id := "123", login_customer_id := "" }, true) :=
  c4_no_refresh_token_frame _ none (by decide)

/-- Counterexample to C5 as stated: a concrete setup run in which the
authorization step fails (the exchange resolves without a refresh token), the
operator declines the retry prompt, and the flow nevertheless never prompts
for manual refresh-token entry and continues with the refresh token still
empty. -/
theorem c5_counterexample :
    promptForMissingConfig
      { developer_token := "DT", client_id := "CI", client_secret := "CS",
        refresh_token := "", customer_id := "123", login_customer_id := "" }
      { developerTokenAns := "", clientIdAns := "", clientSecretAns := "",
        genUrlAns := "yes", attempts := [(ExchangeResult.tokens none, "no")],
        manualRefreshAns := "MANUAL", customerIdAns := "", useLoginAns := "no",
        loginCustomerIdAns := "" } =
      ({ developer_token := "DT", client_id := "CI", client_secret := "CS",
         refresh_token := "", customer_id := "123", login_customer_id := "" }, false) := by
  decide

/-- Claim C5, amended: the manual refresh-token prompt is issued exactly when
the operator initially declines to generate an authorization URL; when an
authorization attempt fails and the operator declines the retry prompt,
generateAuthUrl returns with the configuration exactly as the failed exchange
left it (the refresh token possibly still empty) and no manual-entry fallback
occurs. -/
theorem c5_amended_decline_paths (cfg : GoogleAdsConfig) (a : SetupAnswers)
    (r : ExchangeResult) (retryAns : String) (rest : List (ExchangeResult × String))
    (hdecline : yesAnswer retryAns = false) (hfail : (applyExchange cfg r).2 = true)
    (hnotok : cfg.refresh_token = "") (hmanual : yesAnswer a.genUrlAns = false) :
    generateAuthUrlFlow cfg ((r, retryAns) :: rest) = (applyExchange cfg r).1 ∧
    (cfg.developer_token ≠ "" → cfg.client_id ≠ "" → cfg.client_secret ≠ "" →
      (promptForMissingConfig cfg a).2 = true ∧
      ((promptForMissingConfig cfg a).1).refresh_token = a.manualRefreshAns) := by
  constructor
  · unfold generateAuthUrlFlow
    simp [hfail, hdecline]
  · intro h1 h2 h3
    have hreq : promptRequired cfg a = cfg := by
      unfold promptRequired
      simp [h1, h2, h3]
    have hstep : promptRefresh cfg a = ({ cfg with refresh_token := a.manualRefreshAns }, true) := by
      unfold promptRefresh
      simp [hnotok, hmanual]
    have hkeep := promptCustomerIds_keeps_credentials
      { cfg with refresh_token := a.manualRefreshAns } a
    simp only [promptForMissingConfig]
    rw [hreq, hstep]
    exact ⟨rfl, hkeep.2.2.2⟩

/-- Witness for the amended C5 at a concrete setup run. -/
theorem c5_amended_decline_paths_witness :
    (promptForMissingConfig
      { developer_token := "DT", client_id := "CI", client_secret := "CS",
        refresh_token := "", customer_id := "123", login_customer_id := "" }
      { developerTokenAns := "", clientIdAns := "", clientSecretAns := "",
        genUrlAns := "no", attempts := [], manualRefreshAns := "MANUAL",
        customerIdAns := "", useLoginAns := "no", loginCustomerIdAns := "" }).2 = true :=
  ((c5_amended_decline_paths _ _ ExchangeResult.err "no" [] (by decide) (by decide) rfl
    (by decide)).2 (by decide) (by decide) (by decide)).1

theorem promptRequired_nonempty (cfg : GoogleAdsConfig) (a : SetupAnswers)
    (hdev : cfg.developer_token ≠ "" ∨ a.developerTokenAns ≠ "")
    (hcid : cfg.client_id ≠ "" ∨ a.clientIdAns ≠ "")
    (hsec : cfg.client_secret ≠ "" ∨ a.clientSecretAns ≠ "") :
    (promptRequired cfg a).developer_token ≠ "" ∧
    (promptRequired cfg a).client_id ≠ "" ∧
    (promptRequired cfg a).client_secret ≠ "" ∧
    (promptRequired cfg a).refresh_token = cfg.refresh_token := by
  simp only [promptRequired]
  split_ifs <;> simp_all

theorem promptRefresh_fields (cfg : GoogleAdsConfig) (a : SetupAnswers)
    (hrt : cfg.refresh_token ≠ "" ∨
      (yesAnswer a.genUrlAns = false ∧ a.manualRefreshAns ≠ "")) :
    ((promptRefresh cfg a).1).developer_token = cfg.developer_token ∧
    ((promptRefresh cfg a).1).client_id = cfg.client_id ∧
    ((promptRefresh cfg a).1).client_secret = cfg.client_secret ∧
    ((promptRefresh cfg a).1).refresh_token ≠ "" := by
  unfold promptRefresh
  rcases hrt with h | ⟨hno, hm⟩
  · simp [h]
  · by_cases hempty : cfg.refresh_token = ""
    · simp [hempty, hno, hm]
    · simp [hempty]

theorem generateAuthUrlFlow_first_success (cfg : GoogleAdsConfig) (c retryAns : String)
    (rest : List (ExchangeResult × String)) (hne : c ≠ "") :
    generateAuthUrlFlow cfg ((ExchangeResult.tokens (some c), retryAns) :: rest) =
      { cfg with refresh_token := c } := by
  have ht : jsTruthy (some c) = true := by simp [jsTruthy, hne]
  simp [generateAuthUrlFlow, applyExchange, ht]

/-- Counterexample to C6 as stated: a concrete interactive setup that
completes (the operator enters an empty developer token, chooses to generate
an authorization URL, the exchange returns no refresh token, and retry is
declined) after which both the developer token and the refresh token are
empty, although the flow goes on to make API calls with them. -/
theorem c6_counterexample :
    ((promptForMissingConfig
      { developer_token := "", client_id := "", client_secret := "",
        refresh_token := "", customer_id := "", login_customer_id := "" }
      { developerTokenAns := "", clientIdAns := "CI", clientSecretAns := "CS",
        genUrlAns := "yes", attempts := [(ExchangeResult.tokens none, "no")],
        manualRefreshAns := "", customerIdAns := "123", useLoginAns := "no",
        loginCustomerIdAns := "" }).1).developer_token = "" ∧
    ((promptForMissingConfig
      { developer_token := "", client_id := "", client_secret := "",
        refresh_token := "", customer_id := "", login_customer_id := "" }
      { developerTokenAns := "", clientIdAns := "CI", clientSecretAns := "CS",
        genUrlAns := "yes", attempts := [(ExchangeResult.tokens none, "no")],
        manualRefreshAns := "", customerIdAns := "123", useLoginAns := "no",
        loginCustomerIdAns := "" }).1).refresh_token = "" := by
  decide

/-- Claim C6, amended: the setup step performs no validation, so the
invariant holds only conditionally: after promptForMissingConfig the
developer token, client id and client secret are non-empty provided each was
already non-empty or its prompted answer is non-empty; the refresh token is
non-empty provided it was already set or the operator declines URL
generation and enters a non-empty token manually; and when the operator
generates an authorization URL and the first exchange returns a non-empty
refresh token, that token is stored. (The counterexample shows the unvalidated
empty-answer and declined-retry paths leave required fields empty.) -/
theorem c6_amended_setup_invariant (cfg : GoogleAdsConfig) (a : SetupAnswers)
    (hdev : cfg.developer_token ≠ "" ∨ a.developerTokenAns ≠ "")
    (hcid : cfg.client_id ≠ "" ∨ a.clientIdAns ≠ "")
    (hsec : cfg.client_secret ≠ "" ∨ a.clientSecretAns ≠ "")
    (hrt : cfg.refresh_token ≠ "" ∨
      (yesAnswer a.genUrlAns = false ∧ a.manualRefreshAns ≠ "")) :
    (((promptForMissingConfig cfg a).1).developer_token ≠ "" ∧
     ((promptForMissingConfig cfg a).1).client_id ≠ "" ∧
     ((promptForMissingConfig cfg a).1).client_secret ≠ "" ∧
     ((promptForMissingConfig cfg a).1).refresh_token ≠ "") ∧
    (∀ (c retryAns : String) (rest : List (ExchangeResult × String)), c ≠ "" →
      (generateAuthUrlFlow cfg ((ExchangeResult.tokens (some c), retryAns) :: rest)).refresh_token
        = c) := by
  constructor
  · obtain ⟨h1, h2, h3, h4⟩ := promptRequired_nonempty cfg a hdev hcid hsec
    have hrt3 : (promptRequired cfg a).refresh_token ≠ "" ∨
        (yesAnswer a.genUrlAns = false ∧ a.manualRefreshAns ≠ "") := by
      rw [h4]; exact hrt
    obtain ⟨k1, k2, k3, k4⟩ := promptRefresh_fields (promptRequired cfg a) a hrt3
    have hkeep := promptCustomerIds_keeps_credentials
      (promptRefresh (promptRequired cfg a) a).1 a
    simp only [promptForMissingConfig]
    refine ⟨?_, ?_, ?_, ?_⟩
    · rw [hkeep.1, k1]; exact h1
    · rw [hkeep.2.1, k2]; exact h2
    · rw [hkeep.2.2.1, k3]; exact h3
    · rw [hkeep.2.2.2]; exact k4
  · intro c retryAns rest hne
    rw [generateAuthUrlFlow_first_success cfg c retryAns rest hne]

/-- Witness for the amended C6 at a concrete setup run. -/
theorem c6_amended_setup_invariant_witness :
    ((promptForMissingConfig
      { developer_token := "", client_id := "", client_secret := "",
        refresh_token := "", customer_id := "", login_customer_id := "" }
      { developerTokenAns := "DT", clientIdAns := "CI", clientSecretAns := "CS",
        genUrlAns := "no", attempts := [], manualRefreshAns := "RT",
        customerIdAns := "123", useLoginAns := "no", loginCustomerIdAns := "" }).1).developer_token
      ≠ "" ∧
    ((promptForMissingConfig
      { developer_token := "", client_id := "", client_secret := "",
        refresh_token := "", customer_id := "", login_customer_id := "" }
      { developerTokenAns := "DT", clientIdAns := "CI", clientSecretAns := "CS",
        genUrlAns := "no", attempts := [], manualRefreshAns := "RT",
        customerIdAns := "123", useLoginAns := "no", loginCustomerIdAns := "" }).1).client_id
      ≠ "" ∧
    ((promptForMissingConfig
      { developer_token := "", client_id := "", client_secret := "",
        refresh_token := "", customer_id := "", login_customer_id := "" }
      { developerTokenAns := "DT", clientIdAns := "CI", clientSecretAns := "CS",
        genUrlAns := "no", attempts := [], manualRefreshAns := "RT",
        customerIdAns := "123", useLoginAns := "no", loginCustomerIdAns := "" }).1).client_secret
      ≠ "" ∧
    ((promptForMissingConfig
      { developer_token := "", client_id := "", client_secret := "",
        refresh_token := "", customer_id := "", login_customer_id := "" }
      { developerTokenAns := "DT", clientIdAns := "CI", clientSecretAns := "CS",
        genUrlAns := "no", attempts := [], manualRefreshAns := "RT",
        customerIdAns := "123", useLoginAns := "no", loginCustomerIdAns := "" }).1).refresh_token
      ≠ "" :=
  (c6_amended_setup_invariant _ _ (Or.inr (by decide)) (Or.inr (by decide))
    (Or.inr (by decide)) (Or.inr (by decide))).1

/-- Counterexample to C7 as stated: the authorization URL generated by the
archived script (one of the generateAuthUrl call sites of the repository)
carries the out-of-band redirect target, not a redirect pointing at the
local listener on fixed port 8080. -/
theorem c7_counterexample :
    searchParamsGet (playgroundAuthUrlParams
      { developer_token := "", client_id := "CI", client_secret := "",
        refresh_token := "", customer_id := "", login_customer_id := "" }) "redirect_uri" =
      some "urn:ietf:wg:oauth:2.0:oob" ∧
    "urn:ietf:wg:oauth:2.0:oob" ≠ "http://localhost:" ++ toString 8080 := by
  decide

/-- Claim C7, amended: the authorization URLs of the two scripts that run the
local capture listener always carry the configured client id, the redirect
target of the local listener on fixed port 8080, the advertising API scope,
access_type=offline and prompt=consent; the archived script carries the same
client id, scope, access_type and prompt but uses the out-of-band redirect
target instead of one pointing at a local listener. -/
theorem c7_amended_auth_url_params (cfg : GoogleAdsConfig) :
    searchParamsGet (queryToolAuthUrlParams cfg) "client_id" = some cfg.client_id ∧
    searchParamsGet (queryToolAuthUrlParams cfg) "redirect_uri" =
      some "http://localhost:8080" ∧
    searchParamsGet (queryToolAuthUrlParams cfg) "scope" =
      some "https://www.googleapis.com/auth/adwords" ∧
    searchParamsGet (queryToolAuthUrlParams cfg) "access_type" = some "offline" ∧
    searchParamsGet (queryToolAuthUrlParams cfg) "prompt" = some "consent" ∧
    clickViewAuthUrlParams cfg = queryToolAuthUrlParams cfg ∧
    searchParamsGet (playgroundAuthUrlParams cfg) "client_id" = some cfg.client_id ∧
    searchParamsGet (playgroundAuthUrlParams cfg) "redirect_uri" =
      some "urn:ietf:wg:oauth:2.0:oob" ∧
    searchParamsGet (playgroundAuthUrlParams cfg) "scope" =
      some "https://www.googleapis.com/auth/adwords" ∧
    searchParamsGet (playgroundAuthUrlParams cfg) "access_type" = some "offline" ∧
    searchParamsGet (playgroundAuthUrlParams cfg) "prompt" = some "consent" :=
  ⟨rfl, rfl, rfl, rfl, rfl, rfl, rfl, rfl, rfl, rfl, rfl⟩

theorem dispatchChoice_ok (ev : MenuEvent) :
    ∃ msgs, dispatchChoice ev = Except.ok msgs := by
  unfold dispatchChoice listAccessibleCustomers runGaqlQuery listConversionActions
    updateConversionActionStatus createThirdPartyAppAnalyticsLink
  cases ev.outcome <;> dsimp only <;> split_ifs <;> exact ⟨_, rfl⟩

/-- Claim C8: every API-call operation (listing, query, mutation) catches a
failing collaborator call at its operation boundary and returns normally
(never an escaping error); a failing call has its error reported in the
printed output; and the menu loop continues past any such failure, ending
only on the explicit exit choice 6 (or the end of the operator input
script), never because of an API call error. -/
theorem c8_api_errors_reported_loop_continues :
    (∀ ev : MenuEvent, ∃ msgs, dispatchChoice ev = Except.ok msgs) ∧
    (∀ (ev : MenuEvent) (e : String), ev.outcome = Except.error e →
      ev.choice = "1" ∨ ev.choice = "2" ∨ ev.choice = "3" ∨ ev.choice = "4" ∨
        ev.choice = "5" →
      ∃ m, dispatchChoice ev = Except.ok [m] ∧ ∃ p, m = p ++ e) ∧
    (∀ (ev : MenuEvent) (rest : List MenuEvent), ev.choice ≠ "6" →
      menuLoop (ev :: rest) =
        ((dispatchChoice ev).toOption.getD [] ++ (menuLoop rest).1, (menuLoop rest).2)) ∧
    (∀ script : List MenuEvent,
      (menuLoop script).2 = script.any (fun ev => ev.choice == "6")) := by
  refine ⟨dispatchChoice_ok, ?_, ?_, ?_⟩
  · intro ev e he hch
    rcases hch with h | h | h | h | h
    · exact ⟨"\n❌ Error listing accessible customers: " ++ e,
        by simp [dispatchChoice, h, listAccessibleCustomers, he],
        "\n❌ Error listing accessible customers: ", rfl⟩
    · exact ⟨"\n❌ Error running GAQL query: " ++ e,
        by simp [dispatchChoice, h, runGaqlQuery, he],
        "\n❌ Error running GAQL query: ", rfl⟩
    · exact ⟨"\n❌ Error listing conversion actions: " ++ e,
        by simp [dispatchChoice, h, listConversionActions, he],
        "\n❌ Error listing conversion actions: ", rfl⟩
    · exact ⟨"\n❌ Error updating conversion action status: " ++ e,
        by simp [dispatchChoice, h, updateConversionActionStatus, he],
        "\n❌ Error updating conversion action status: ", rfl⟩
    · exact ⟨"\n❌ Error creating Third-Party App Analytics Link: " ++ e,
        by simp [dispatchChoice, h, createThirdPartyAppAnalyticsLink, he],
        "\n❌ Error creating Third-Party App Analytics Link: ", rfl⟩
  · intro ev rest h
    obtain ⟨msgs, hm⟩ := dispatchChoice_ok ev
    unfold menuLoop
    rw [if_neg h, hm]
    simp only [Except.toOption, Option.getD]
    rw [← menuLoop.eq_def]
  · intro script
    induction script with
    | nil => rfl
    | cons ev rest ih =>
      by_cases h : ev.choice = "6"
      · simp [menuLoop, h]
      · obtain ⟨msgs, hm⟩ := dispatchChoice_ok ev
        simp [menuLoop, h, hm, ih]

/-- Witness for C8 at a concrete script: a failing GAQL query is reported
and the loop still reaches and honours the exit choice. -/
theorem c8_api_errors_reported_loop_continues_witness :
    (∃ m, dispatchChoice ⟨"2", Except.error "boom"⟩ = Except.ok [m] ∧
      ∃ p, m = p ++ "boom") ∧
    (menuLoop [⟨"2", Except.error "boom"⟩, ⟨"6", Except.ok []⟩]).2 = true := by
  obtain ⟨-, h2, -, h4⟩ := c8_api_errors_reported_loop_continues
  refine ⟨h2 ⟨"2", Except.error "boom"⟩ "boom" rfl (Or.inr (Or.inl rfl)), ?_⟩
  rw [h4]
  decide

/-- The civil conversion is a right inverse of the day-number computation
and always produces a month in 1..12 and a day of month in 1..31. -/
theorem civilFromDays_spec (z : Int) :
    daysFromCivil (civilFromDays z) = z ∧
    1 ≤ (civilFromDays z).month ∧ (civilFromDays z).month ≤ 12 ∧
    1 ≤ (civilFromDays z).day ∧ (civilFromDays z).day ≤ 31 := by
  unfold civilFromDays daysFromCivil
  dsimp only
  set era : Int := (z + 719468) / 146097 with hera
  set doe : Nat := (z + 719468 - era * 146097).toNat with hdoe
  set c : Nat := min (doe / 36524) 3 with hc
  set doc : Nat := doe - 36524 * c with hdoc
  set q : Nat := doc / 1461 with hq
  set doq : Nat := doc - 1461 * q with hdoq
  set yq : Nat := min (doq / 365) 3 with hyq
  set doy : Nat := doq - 365 * yq with hdoy
  set yoe : Nat := 100 * c + 4 * q + yq with hyoe
  set mp : Nat := (5 * doy + 2) / 153 with hmp
  set d : Nat := doy - (153 * mp + 2) / 5 + 1 with hd
  have hdoe96 : doe ≤ 146096 := by omega
  have hdoeI : (doe : Int) = z + 719468 - era * 146097 := by omega
  have hc3 : c ≤ 3 := by omega
  have hcle : 36524 * c ≤ doe := by omega
  have hdoc1 : doc ≤ 36524 := by omega
  have hq24 : q ≤ 24 := by omega
  have hqle : 1461 * q ≤ doc := by omega
  have hdoq1 : doq ≤ 1460 := by omega
  have hyq3 : yq ≤ 3 := by omega
  have hyqle : 365 * yq ≤ doq := by omega
  have hdoy365 : doy ≤ 365 := by omega
  have hsum : doe = 36524 * c + 1461 * q + 365 * yq + doy := by omega
  have hyoe399 : yoe ≤ 399 := by omega
  have hyoed4 : yoe / 4 = 25 * c + q := by omega
  have hyoed100 : yoe / 100 = c := by omega
  have hmp11 : mp ≤ 11 := by omega
  have hrle : (153 * mp + 2) / 5 ≤ doy := by omega
  have hrge : doy - (153 * mp + 2) / 5 ≤ 30 := by omega
  by_cases hmp10 : mp < 10
  · simp only [if_pos hmp10]
    have h1 : ¬ (mp + 3 ≤ 2) := by omega
    have h2 : 2 < mp + 3 := by omega
    simp only [if_neg h1, if_pos h2, add_zero, sub_zero]
    refine ⟨?_, by omega, by omega, by omega, by omega⟩
    have hera2 : ((yoe : Int) + era * 400) / 400 = era := by omega
    rw [hera2]
    have hyoe2 : ((yoe : Int) + era * 400 - era * 400).toNat = yoe := by omega
    rw [hyoe2]
    have hmp3 : mp + 3 - 3 = mp := by omega
    rw [hmp3]
    have hdoy2 : (153 * mp + 2) / 5 + d - 1 = doy := by omega
    rw [hdoy2]
    have hdoe2 : yoe * 365 + yoe / 4 - yoe / 100 + doy = doe := by omega
    rw [hdoe2]
    omega
  · simp only [if_neg hmp10]
    have h1 : mp - 9 ≤ 2 := by omega
    have h2 : ¬ (2 < mp - 9) := by omega
    simp only [if_pos h1, if_neg h2, add_sub_cancel_right]
    refine ⟨?_, by omega, by omega, by omega, by omega⟩
    have hera2 : ((yoe : Int) + era * 400) / 400 = era := by omega
    rw [hera2]
    have hyoe2 : ((yoe : Int) + era * 400 - era * 400).toNat = yoe := by omega
    rw [hyoe2]
    have hmp9 : mp - 9 + 9 = mp := by omega
    rw [hmp9]
    have hdoy2 : (153 * mp + 2) / 5 + d - 1 = doy := by omega
    rw [hdoy2]
    have hdoe2 : yoe * 365 + yoe / 4 - yoe / 100 + doy = doe := by omega
    rw [hdoe2]
    omega

theorem pad2_length (n : Nat) (h1 : 1 ≤ n) (h2 : n ≤ 31) : (pad2 n).length = 2 := by
  interval_cases n <;> rfl

/-- Claim C9: generateLast90DaysDates always returns exactly 90 date
strings; the entry at index i is the civil date exactly i days before today
(so the first entry is today and consecutive entries descend by exactly one
day, witnessed by the day-number round trip), and every entry is the year
followed by a zero-padded two-digit month and a zero-padded two-digit day,
joined with dashes. -/
theorem c9_last_90_days (t : Int) :
    (generateLast90DaysDates t).length = 90 ∧
    (generateLast90DaysDates t)[0]? = some (formatDateYMD (civilFromDays t)) ∧
    (∀ i : Nat, i < 90 →
      (generateLast90DaysDates t)[i]? =
        some (formatDateYMD (civilFromDays (t - (i : Int)))) ∧
      daysFromCivil (civilFromDays (t - (i : Int))) = t - (i : Int) ∧
      1 ≤ (civilFromDays (t - (i : Int))).month ∧
      (civilFromDays (t - (i : Int))).month ≤ 12 ∧
      1 ≤ (civilFromDays (t - (i : Int))).day ∧
      (civilFromDays (t - (i : Int))).day ≤ 31 ∧
      (pad2 (civilFromDays (t - (i : Int))).month).length = 2 ∧
      (pad2 (civilFromDays (t - (i : Int))).day).length = 2) := by
  have hodd : ∀ i : Nat, i < 90 →
      (generateLast90DaysDates t)[i]? =
        some (formatDateYMD (civilFromDays (t - (i : Int)))) := by
    intro i hi
    unfold generateLast90DaysDates
    rw [List.getElem?_map, List.getElem?_range hi, Option.map_some']
  refine ⟨?_, ?_, ?_⟩
  · unfold generateLast90DaysDates
    rw [List.length_map, List.length_range]
  · have h0 := hodd 0 (by norm_num)
    simpa using h0
  · intro i hi
    obtain ⟨hrt, hm1, hm2, hd1, hd2⟩ := civilFromDays_spec (t - (i : Int))
    exact ⟨hodd i hi, hrt, hm1, hm2, hd1, hd2,
      pad2_length _ hm1 (le_trans hm2 (by norm_num)), pad2_length _ hd1 hd2⟩

/-- Witness for C9 at the concrete day number 0 (1970-01-01). -/
theorem c9_last_90_days_witness :
    (generateLast90DaysDates 0).length = 90 ∧
    (generateLast90DaysDates 0)[0]? = some "1970-01-01" ∧
    daysFromCivil (civilFromDays (0 - ((0 : Nat) : Int))) = 0 - ((0 : Nat) : Int) := by
  obtain ⟨hlen, hhead, hall⟩ := c9_last_90_days 0
  refine ⟨hlen, ?_, (hall 0 (by norm_num)).2.1⟩
  rw [hhead]
  decide
